import Mathlib

set_option linter.unusedVariables false

/-!
Shallow embedding of the ZeroTrustAuthentication event-synchronization and
proof-submission workflow.

Sources embedded:
* `src/packages/authclient/src/functions/contract.ts` — the contract event
  bridge (`processEvent`, `startBlockchainListeners`, `isAlreadyMember`).
* `src/unnamed/part_000` — the workflow coordinator (`addMember`,
  `sendJoinProof`, `sendModTrainProof`, `waitForMemberEvent`, `main`).

The membership storage module (`groupStorage`: `addMember`, `removeMember`,
`updateMember`, `loadMembers`, `saveMembers`) is not part of the provided
source tree; its operations are modelled from the spec (section 4.1) and are
marked as such below.

Effects (HTTP posts, proof generation, waiting) are modelled as explicit
traces of `CoordAction`s; fallible steps return `Except WorkflowError`.
-/

namespace ZeroTrustAuth

/-! ## Data model -/

/-- Group identifiers are strings (the bridge stringifies the on-chain id). -/
abbrev GroupId := String

/-- A commitment is an arbitrary-precision integer (`bigint` in the source). -/
abbrev Commitment := Int

/-- The persisted membership mirror: a mapping from group id to the ordered
list of member commitment decimal strings (spec section 6, persisted layout).
Modelled as an association list. -/
abbrev Mirror := List (GroupId × List String)

/-- Raw ledger events consumed by the bridge (spec section 3 / section 6,
matching the handlers in `startBlockchainListeners`). -/
inductive RawChainEvent where
  | GroupCreated (groupId : GroupId)
  | MemberAdded (groupId : GroupId) (index : Nat) (commitment : Commitment)
  | MembersAdded (groupId : GroupId) (startIndex : Nat) (commitments : List Commitment)
  | MemberRemoved (groupId : GroupId) (index : Nat) (commitment : Commitment)
  | MemberUpdated (groupId : GroupId) (index : Nat) (oldCommitment newCommitment : Commitment)
  deriving DecidableEq

/-- Normalized workflow-facing events, i.e. what `startBlockchainListeners`
emits on the `blockchainEvents` emitter.  Each member event carries the
stringified group id and commitment exactly as in the `emit` calls. -/
inductive NormalizedEvent where
  | GroupCreated (groupId : GroupId)
  | MemberAddedProcessed (groupId : GroupId) (commitment : String)
  | MemberRemovedProcessed (groupId : GroupId) (commitment : String)
  | MemberUpdatedProcessed (groupId : GroupId) (commitment : String)
  deriving DecidableEq

/-! ## Membership mirror operations

`groupStorage` is not under `src/`; these are modelled from the spec,
section 4.1. -/

/-- The ordered member list of a group in the mirror (empty if the group is
absent). -/
def mirrorMembers : Mirror → GroupId → List String
  | [], _ => []
  | (g, l) :: rest, groupId => if g = groupId then l else mirrorMembers rest groupId

/-- Replace (or create) the member list of one group, leaving other groups
untouched. -/
def setGroup : Mirror → GroupId → List String → Mirror
  | [], groupId, l => [(groupId, l)]
  | p :: rest, groupId, l =>
    if p.1 = groupId then (groupId, l) :: rest else p :: setGroup rest groupId l

/-- Modelled from the spec: `groupStorage.addMember(groupId, commitment)` —
appends the commitment to the group's ordered list (insertion order = chain
order), a no-op if the commitment is already present (idempotent). -/
def addMember (m : Mirror) (groupId : GroupId) (c : String) : Mirror :=
  if c ∈ mirrorMembers m groupId then m
  else setGroup m groupId (mirrorMembers m groupId ++ [c])

/-- Modelled from the spec: `groupStorage.removeMember(groupId, commitment)` —
removes the commitment from the group's list, a no-op if absent. -/
def removeMember (m : Mirror) (groupId : GroupId) (c : String) : Mirror :=
  if c ∈ mirrorMembers m groupId then
    setGroup m groupId ((mirrorMembers m groupId).erase c)
  else m

/-- Modelled from the spec: `groupStorage.updateMember(groupId, old, new)` —
replaces `old` with `new` preserving its position; if `old` is absent, treated
as an add of `new`. -/
def updateMember (m : Mirror) (groupId : GroupId) (oldC newC : String) : Mirror :=
  if oldC ∈ mirrorMembers m groupId then
    setGroup m groupId ((mirrorMembers m groupId).map (fun x => if x = oldC then newC else x))
  else addMember m groupId newC

/-! ## Contract event bridge (`contract.ts`) -/

/-- One event handler registration of `startBlockchainListeners`
(contract.ts lines 40-104): given the current mirror and a raw event, produce
the updated mirror and the list of `NormalizedEvent`s emitted on
`blockchainEvents`.  Note that the `MembersAdded` handler (lines 64-75) adds
every commitment of the batch but emits nothing. -/
def handleRawEvent (m : Mirror) : RawChainEvent → Mirror × List NormalizedEvent
  | RawChainEvent.GroupCreated g =>
    (m, [NormalizedEvent.GroupCreated g])
  | RawChainEvent.MemberAdded g _index c =>
    (addMember m g (toString c), [NormalizedEvent.MemberAddedProcessed g (toString c)])
  | RawChainEvent.MembersAdded g _startIndex cs =>
    (cs.foldl (fun acc c => addMember acc g (toString c)) m, [])
  | RawChainEvent.MemberRemoved g _index c =>
    (removeMember m g (toString c), [NormalizedEvent.MemberRemovedProcessed g (toString c)])
  | RawChainEvent.MemberUpdated g _index oldC newC =>
    (updateMember m g (toString oldC) (toString newC),
     [NormalizedEvent.MemberUpdatedProcessed g (toString newC)])

/-- A chain record as seen by `processEvent`: the event together with its
block/position watermark. -/
structure ChainRecord where
  position : Nat
  event : RawChainEvent
  deriving DecidableEq

/-- `contract.queryFilter(eventName, fromBlock, \x22latest\x22)` (contract.ts
line 25): every record of the stream whose position lies between `fromBlock`
and the chain head at query time. -/
def queryFilterResult (fromBlock head : Nat) (stream : List ChainRecord) : List ChainRecord :=
  stream.filter (fun r => fromBlock ≤ r.position && r.position ≤ head)

/-- `contract.on(eventName, handler)` (contract.ts lines 31-33): the live
subscription delivers exactly the records whose position is past the point
`subStart` at which the subscription becomes effective. -/
def liveDelivered (subStart : Nat) (stream : List ChainRecord) : List ChainRecord :=
  stream.filter (fun r => subStart < r.position)

/-- The full delivery of `processEvent` (contract.ts lines 24-34): the
backfill results (positions in `[fromBlock, head]`, where `head` is the chain
head when `queryFilter` resolves) followed by the live deliveries (positions
past `subStart`, the position at which the `contract.on` registration takes
effect; the registration happens only after the backfill loop, so
`head ≤ subStart`).  The code keeps no watermark and does no buffering or
de-duplication between the two phases. -/
def processEventDelivered (fromBlock head subStart : Nat)
    (stream : List ChainRecord) : List ChainRecord :=
  queryFilterResult fromBlock head stream ++ liveDelivered subStart stream

/-- Apply a list of delivered chain records to the mirror in order,
accumulating all emitted normalized events. -/
def applyRecords (m : Mirror) (rs : List ChainRecord) : Mirror × List NormalizedEvent :=
  rs.foldl
    (fun acc r =>
      let step := handleRawEvent acc.1 r.event
      (step.1, acc.2 ++ step.2))
    (m, [])

/-- `isAlreadyMember` (contract.ts lines 113-121): passes through the result
of the authoritative chain query `contract.hasMember(groupId, commitment)`. -/
def isAlreadyMember (hasMemberResult : Bool) : Bool := hasMemberResult

/-! ## Event correlator (`waitForMemberEvent`, part_000 lines 107-134) -/

/-- Outcome of one call to `waitForMemberEvent`. -/
inductive WaitCallResult where
  /-- The call returned `Promise.resolve()` at once, without consulting any
  event. -/
  | resolvedImmediately
  /-- The call registered a handler for the given key and returned a pending
  promise. -/
  | registered (groupId : GroupId) (identityCommitment : Option Commitment)
  deriving DecidableEq

/-- The entry of `waitForMemberEvent` (part_000 lines 108-116): guarded by the
single module-global flag `isWaitingForMemberEvent`.  If a wait is already
pending the call returns an already-resolved promise; otherwise it sets the
flag and registers a handler.  Returns (new flag value, call result). -/
def waitForMemberEvent (isWaitingForMemberEvent : Bool) (groupId : GroupId)
    (identityCommitment : Option Commitment) : Bool × WaitCallResult :=
  if isWaitingForMemberEvent then
    (isWaitingForMemberEvent, WaitCallResult.resolvedImmediately)
  else
    (true, WaitCallResult.registered groupId identityCommitment)

/-- The commitment test of the registered handler (part_000 line 120):
`!identityCommitment || emittedCommitment === identityCommitment.toString()`.
In JavaScript `!identityCommitment` is true both when the argument was omitted
and when it is the falsy bigint `0n`. -/
def commitmentMatches (identityCommitment : Option Commitment) (emitted : String) : Bool :=
  match identityCommitment with
  | none => true
  | some v => if v = 0 then true else emitted == toString v

/-- Whether a registered wait handler resolves on a given normalized event
(part_000 lines 117-133).  The handler is subscribed to the
`MemberAddedProcessed`, `MemberRemovedProcessed` and `MemberUpdatedProcessed`
emissions (lines 130-132) — `GroupCreated` never reaches it — and resolves
when the emitted group id equals the registered one and the commitment test
passes. -/
def waitHandlerResolves (groupId : GroupId) (identityCommitment : Option Commitment) :
    NormalizedEvent → Bool
  | NormalizedEvent.GroupCreated _ => false
  | NormalizedEvent.MemberAddedProcessed g c =>
    g == groupId && commitmentMatches identityCommitment c
  | NormalizedEvent.MemberRemovedProcessed g c =>
    g == groupId && commitmentMatches identityCommitment c
  | NormalizedEvent.MemberUpdatedProcessed g c =>
    g == groupId && commitmentMatches identityCommitment c

/-! ## Workflow coordinator (`part_000`) -/

/-- Errors thrown by the coordinator's proof-construction steps. -/
inductive WorkflowError where
  /-- part_000 lines 38 and 71: the commitment is absent from the group. -/
  | commitmentNotFound
  /-- part_000 line 79: a `number` element failing `Number.isSafeInteger`. -/
  | unsafeNumber
  /-- part_000 line 86: a `deltaw` element of unsupported runtime type. -/
  | unsupportedType
  deriving DecidableEq

/-- A model-update (`deltaw`) element, mirroring the runtime types the
`sendModTrainProof` validation distinguishes: `bigint`, `number` (carrying
its `Number.isSafeInteger` verdict), `string`, and anything else (for
instance the `BigNumber` objects admitted by the signature). -/
inductive DeltaValue where
  | bigintVal (n : Int)
  | numberVal (n : Int) (isSafeInt : Bool)
  | strVal (s : String)
  | otherVal
  deriving DecidableEq

/-- The per-element validation and stringification of `sendModTrainProof`
(part_000 lines 73-87). -/
def canonicalizeItem : DeltaValue → Except WorkflowError String
  | DeltaValue.bigintVal n => Except.ok (toString n)
  | DeltaValue.numberVal n isSafeInt =>
    if isSafeInt then Except.ok (toString n)
    else Except.error WorkflowError.unsafeNumber
  | DeltaValue.strVal s => Except.ok s
  | DeltaValue.otherVal => Except.error WorkflowError.unsupportedType

/-- `deltaw.map(...)` with a throwing callback (part_000 lines 73-87): maps
left to right, stopping at the first failing element. -/
def stringArrayOf : List DeltaValue → Except WorkflowError (List String)
  | [] => Except.ok []
  | item :: rest =>
    match canonicalizeItem item with
    | Except.error e => Except.error e
    | Except.ok s =>
      match stringArrayOf rest with
      | Except.error e => Except.error e
      | Except.ok ss => Except.ok (s :: ss)

/-- A hexadecimal digit character, lower case (as in JSON escapes). -/
def hexDigit (n : Nat) : Char :=
  if n < 10 then Char.ofNat (48 + n) else Char.ofNat (87 + n)

/-- `JSON.stringify` escaping of one character inside a string literal. -/
def jsonEscapeChar (c : Char) : List Char :=
  if c = Char.ofNat 34 then [Char.ofNat 92, Char.ofNat 34]
  else if c = Char.ofNat 92 then [Char.ofNat 92, Char.ofNat 92]
  else if c = Char.ofNat 10 then [Char.ofNat 92, 'n']
  else if c = Char.ofNat 13 then [Char.ofNat 92, 'r']
  else if c = Char.ofNat 9 then [Char.ofNat 92, 't']
  else if c = Char.ofNat 8 then [Char.ofNat 92, 'b']
  else if c = Char.ofNat 12 then [Char.ofNat 92, 'f']
  else if c.toNat < 32 then
    [Char.ofNat 92, 'u', '0', '0', hexDigit (c.toNat / 16), hexDigit (c.toNat % 16)]
  else [c]

/-- `JSON.stringify` of one string value: a quoted, escaped literal. -/
def jsonQuote (s : String) : String :=
  String.mk (Char.ofNat 34 :: (s.data.map jsonEscapeChar).flatten ++ [Char.ofNat 34])

/-- `JSON.stringify(stringArray)` (part_000 line 89) for an array of
strings. -/
def jsonStringifyArray (xs : List String) : String :=
  "[" ++ String.intercalate "," (xs.map jsonQuote) ++ "]"

/-- UTF-8 encoding of one character (what `TextEncoder` produces). -/
def utf8EncodeChar (c : Char) : List Nat :=
  let n := c.toNat
  if n < 128 then [n]
  else if n < 2048 then [192 + n / 64, 128 + n % 64]
  else if n < 65536 then [224 + n / 4096, 128 + (n / 64) % 64, 128 + n % 64]
  else [240 + n / 262144, 128 + (n / 4096) % 64, 128 + (n / 64) % 64, 128 + n % 64]

/-- `new TextEncoder().encode(jsonString)` (part_000 line 90): the UTF-8
bytes of the string. -/
def utf8Encode (s : String) : List Nat :=
  (s.data.map utf8EncodeChar).flatten

/-- `Group.indexOf(commitment)` from the Semaphore group built over the
mirror's member list: the first index holding the commitment, `none` when
absent (the source's `-1`). -/
def groupIndexOf : List Commitment → Commitment → Option Nat
  | [], _ => none
  | x :: xs, c => if x = c then some 0 else (groupIndexOf xs c).map (· + 1)

/-- The `slice(0, 8)` of a JavaScript string: its first (at most) eight
characters. -/
def strTake (s : String) (n : Nat) : String :=
  String.mk (s.data.take n)

/-- Observable actions of the coordinator, in execution order. -/
inductive CoordAction where
  /-- `POST /add-member` (part_000 line 22). -/
  | addMemberPost
  /-- a `waitForMemberEvent` registration (part_000 line 192). -/
  | waitRegistration
  /-- `generateProof` for the join proof (part_000 line 44). -/
  | joinProofGen
  /-- `POST /group/:groupId/join-proof` (part_000 line 47). -/
  | joinProofPost
  /-- `generateProof` for the model-update proof (part_000 line 91). -/
  | modTrainProofGen
  /-- `POST /group/:groupId/modtrain-proof` (part_000 line 94). -/
  | modTrainPost
  /-- a `console.error` in a submission `catch` handler. -/
  | logSubmissionError
  deriving DecidableEq

/-- Whether an action is an HTTP request. -/
def isHttpPost : CoordAction → Bool
  | CoordAction.addMemberPost => true
  | CoordAction.joinProofPost => true
  | CoordAction.modTrainPost => true
  | _ => false

/-- Number of HTTP requests in a trace. -/
def httpPostCount (as : List CoordAction) : Nat :=
  (as.filter isHttpPost).length

/-- Whether an action is a `generateProof` invocation. -/
def isProofGen : CoordAction → Bool
  | CoordAction.joinProofGen => true
  | CoordAction.modTrainProofGen => true
  | _ => false

/-- Number of `generateProof` invocations in a trace. -/
def proofGenCount (as : List CoordAction) : Nat :=
  (as.filter isProofGen).length

/-- Decidable equality for `Except` results. -/
instance {ε α : Type} [DecidableEq ε] [DecidableEq α] : DecidableEq (Except ε α) :=
  fun a b =>
    match a, b with
    | Except.error e, Except.error f =>
      if h : e = f then isTrue (by rw [h])
      else isFalse (by intro hh; cases hh; exact h rfl)
    | Except.error _, Except.ok _ => isFalse (by intro hh; cases hh)
    | Except.ok _, Except.error _ => isFalse (by intro hh; cases hh)
    | Except.ok v, Except.ok w =>
      if h : v = w then isTrue (by rw [h])
      else isFalse (by intro hh; cases hh; exact h rfl)

/-- Result of one `sendJoinProof` call. -/
structure JoinRun where
  result : Except WorkflowError Unit
  actions : List CoordAction
  message : Option String
  scope : Option String
  deriving DecidableEq

/-- `sendJoinProof` (part_000 lines 34-58).  `submitOk` is the outcome of the
single `axios.post`; its failure is caught (line 57, logged) so the call still
resolves.  The thrown commitment-not-found error (line 38) happens before any
proof generation or network activity. -/
def sendJoinProof (groupId : GroupId) (group : List Commitment)
    (commitment : Commitment) (submitOk : Bool) : JoinRun :=
  match groupIndexOf group commitment with
  | none =>
    { result := Except.error WorkflowError.commitmentNotFound
      actions := []
      message := none
      scope := none }
  | some _index =>
    let scope := "join-" ++ groupId
    let message := "join-" ++ strTake (toString commitment) 8
    { result := Except.ok ()
      actions := [CoordAction.joinProofGen, CoordAction.joinProofPost] ++
        (if submitOk then [] else [CoordAction.logSubmissionError])
      message := some message
      scope := some scope }

/-- Result of one `sendModTrainProof` call.  `message` holds the byte
sequence passed to `generateProof` and posted to the verifier. -/
structure ModTrainRun where
  result : Except WorkflowError Unit
  actions : List CoordAction
  message : Option (List Nat)
  deriving DecidableEq

/-- `sendModTrainProof` (part_000 lines 60-105).  The commitment lookup
(lines 68-71) precedes the value validation (lines 73-87), which precedes
proof generation (line 91) and the single `axios.post` (line 94) whose
failure is caught and logged (line 104). -/
def sendModTrainProof (groupId : GroupId) (group : List Commitment)
    (commitment : Commitment) (scope : String) (deltaw : List DeltaValue)
    (submitOk : Bool) : ModTrainRun :=
  match groupIndexOf group commitment with
  | none =>
    { result := Except.error WorkflowError.commitmentNotFound
      actions := []
      message := none }
  | some _index =>
    match stringArrayOf deltaw with
    | Except.error e =>
      { result := Except.error e
        actions := []
        message := none }
    | Except.ok stringArray =>
      let jsonString := jsonStringifyArray stringArray
      let message := utf8Encode jsonString
      { result := Except.ok ()
        actions := [CoordAction.modTrainProofGen, CoordAction.modTrainPost] ++
          (if submitOk then [] else [CoordAction.logSubmissionError])
        message := some message }

/-- `addMember` of part_000 (lines 20-32): one `POST /add-member` whose
failure is caught and logged, so the coordinator always continues. -/
def addMemberRequest (submitOk : Bool) : List CoordAction :=
  [CoordAction.addMemberPost] ++
    (if submitOk then [] else [CoordAction.logSubmissionError])

/-- Result of the coordinator workflow `main`. -/
structure MainRun where
  actions : List CoordAction
  result : Except WorkflowError Unit
  deriving DecidableEq

/-- The fixed model-update values of `main` (part_000 line 213):
`[BigInt(1), BigInt(2), BigInt(3)]`. -/
def mainDeltaw : List DeltaValue :=
  [DeltaValue.bigintVal 1, DeltaValue.bigintVal 2, DeltaValue.bigintVal 3]

/-- Steps 11-12 of `main` (part_000 lines 205-214): the join proof, then — only
if it did not throw — the model-update proof with scope `round-1` and
`mainDeltaw`.  A `WorkflowError` thrown by either call is uncaught in `main`
and propagates. -/
def proofPhase (groupId : GroupId) (commitment : Commitment)
    (groupMembers : List Commitment) (joinOk modOk : Bool) :
    List CoordAction × Except WorkflowError Unit :=
  let joinRun := sendJoinProof groupId groupMembers commitment joinOk
  match joinRun.result with
  | Except.error e => (joinRun.actions, Except.error e)
  | Except.ok _ =>
    let modRun := sendModTrainProof groupId groupMembers commitment "round-1" mainDeltaw modOk
    (joinRun.actions ++ modRun.actions, modRun.result)

/-- Steps 9-12 of `main` (part_000 lines 184-214): the authoritative
membership check via `isAlreadyMember`, the conditional admission request and
wait registration, then the proof phase over the member list loaded from the
mirror (`groupMembers`, the group built by `new Group(groupMembers)`).
`hasMemberResult` is the value returned by the chain query `hasMember`;
`addOk`, `joinOk`, `modOk` are the outcomes of the three HTTP submissions. -/
def main (groupId : GroupId) (commitment : Commitment) (hasMemberResult : Bool)
    (groupMembers : List Commitment) (addOk joinOk modOk : Bool) : MainRun :=
  let alreadyMember := isAlreadyMember hasMemberResult
  let admission : List CoordAction :=
    if alreadyMember then []
    else addMemberRequest addOk ++ [CoordAction.waitRegistration]
  let phase := proofPhase groupId commitment groupMembers joinOk modOk
  { actions := admission ++ phase.1
    result := phase.2 }

/-! ## Spec-side definitions (for refinement comparisons only)

These follow the spec's words, to be compared with the definitions above
translated from the source. -/

/-- Whether a `deltaw` element is supported per the spec (section 4.4 step 5):
an arbitrary-precision integer, an exactly-representable number, or a
pre-formatted numeric string (any string passes the source's check). -/
def isSupported : DeltaValue → Bool
  | DeltaValue.bigintVal _ => true
  | DeltaValue.numberVal _ isSafeInt => isSafeInt
  | DeltaValue.strVal _ => true
  | DeltaValue.otherVal => false

/-- The decimal-string canonical form of a supported element (spec section
4.4 step 5: \x22Canonicalize all values to decimal strings\x22). -/
def canonicalForm : DeltaValue → String
  | DeltaValue.bigintVal n => toString n
  | DeltaValue.numberVal n _ => toString n
  | DeltaValue.strVal s => s
  | DeltaValue.otherVal => ""

/-- Follows the spec's words (section 4.4 step 5): canonicalize the values to
decimal strings, JSON-array-encode them, encode the result as bytes — this
byte sequence is the proof message. -/
def specProofMessage (values : List DeltaValue) : List Nat :=
  utf8Encode (jsonStringifyArray (values.map canonicalForm))

/-- Follows the spec's words (section 4.4 step 4): a deterministic public
message built from a fixed prefix followed by a fixed-length (8-character)
prefix of the commitment's decimal string. -/
def specJoinMessage (commitment : Commitment) : String :=
  "join-" ++ strTake (toString commitment) 8

/-- Follows the spec's words (section 4.4 step 4): the scope is a fixed
prefix concatenated with the group id. -/
def specJoinScope (groupId : GroupId) : String :=
  "join-" ++ groupId

/-! ## Helper lemmas -/

theorem mirrorMembers_setGroup (m : Mirror) (g : GroupId) (l : List String) :
    mirrorMembers (setGroup m g l) g = l := by
  induction m with
  | nil => simp [setGroup, mirrorMembers]
  | cons p rest ih =>
    obtain ⟨g', l'⟩ := p
    by_cases h : g' = g
    · simp [setGroup, h, mirrorMembers]
    · simp [setGroup, h, mirrorMembers, ih]

theorem mem_addMember_self (m : Mirror) (g : GroupId) (c : String) :
    c ∈ mirrorMembers (addMember m g c) g := by
  unfold addMember
  by_cases h : c ∈ mirrorMembers m g
  · simp only [if_pos h]
    exact h
  · simp [h, mirrorMembers_setGroup]

theorem mem_addMember_mono {x : String} {m : Mirror} {g : GroupId} (c : String)
    (h : x ∈ mirrorMembers m g) : x ∈ mirrorMembers (addMember m g c) g := by
  unfold addMember
  by_cases hc : c ∈ mirrorMembers m g
  · simpa [hc]
  · simp [hc, mirrorMembers_setGroup]
    exact Or.inl h

theorem mem_foldl_addMember_mono (g : GroupId) (cs : List Commitment) :
    ∀ (m : Mirror) (x : String), x ∈ mirrorMembers m g →
      x ∈ mirrorMembers (cs.foldl (fun acc c => addMember acc g (toString c)) m) g := by
  induction cs with
  | nil => intro m x h; exact h
  | cons c rest ih =>
    intro m x h
    simpa using ih (addMember m g (toString c)) x (mem_addMember_mono _ h)

theorem mem_foldl_addMember (g : GroupId) (cs : List Commitment) :
    ∀ (m : Mirror) (c : Commitment), c ∈ cs →
      toString c ∈ mirrorMembers (cs.foldl (fun acc x => addMember acc g (toString x)) m) g := by
  induction cs with
  | nil => intro m c h; cases h
  | cons y rest ih =>
    intro m c h
    rcases List.mem_cons.mp h with h1 | h2
    · subst h1
      exact mem_foldl_addMember_mono g rest _ _ (mem_addMember_self m g (toString c))
    · exact ih _ c h2

theorem groupIndexOf_eq_none (l : List Commitment) (c : Commitment) (h : c ∉ l) :
    groupIndexOf l c = none := by
  induction l with
  | nil => rfl
  | cons x xs ih =>
    have hx : ¬ x = c := by
      intro hh
      exact h (by simp [hh])
    have hxs : c ∉ xs := fun hm => h (List.mem_cons_of_mem _ hm)
    simp [groupIndexOf, hx, ih hxs]

theorem groupIndexOf_isSome (l : List Commitment) (c : Commitment) (h : c ∈ l) :
    ∃ i, groupIndexOf l c = some i := by
  induction l with
  | nil => cases h
  | cons x xs ih =>
    by_cases hx : x = c
    · exact ⟨0, by simp [groupIndexOf, hx]⟩
    · rcases List.mem_cons.mp h with h1 | h2
      · exact absurd h1.symm hx
      · rcases ih h2 with ⟨i, hi⟩
        exact ⟨i + 1, by simp [groupIndexOf, hx, hi]⟩

theorem canonicalizeItem_error_cases {x : DeltaValue} {e : WorkflowError}
    (h : canonicalizeItem x = Except.error e) :
    e = WorkflowError.unsafeNumber ∨ e = WorkflowError.unsupportedType := by
  cases x with
  | bigintVal n => simp [canonicalizeItem] at h
  | numberVal n isSafeInt =>
    cases isSafeInt with
    | true => simp [canonicalizeItem] at h
    | false =>
      simp [canonicalizeItem] at h
      exact Or.inl h.symm
  | strVal s => simp [canonicalizeItem] at h
  | otherVal =>
    simp [canonicalizeItem] at h
    exact Or.inr h.symm

theorem stringArrayOf_error_of_bad :
    ∀ (l : List DeltaValue),
      ((∃ n, DeltaValue.numberVal n false ∈ l) ∨ DeltaValue.otherVal ∈ l) →
      stringArrayOf l = Except.error WorkflowError.unsafeNumber ∨
        stringArrayOf l = Except.error WorkflowError.unsupportedType := by
  intro l
  induction l with
  | nil =>
    intro h
    rcases h with ⟨n, hn⟩ | hn <;> cases hn
  | cons x xs ih =>
    intro h
    cases hcx : canonicalizeItem x with
    | error e =>
      rcases canonicalizeItem_error_cases hcx with h1 | h1 <;> subst h1
      · left; simp [stringArrayOf, hcx]
      · right; simp [stringArrayOf, hcx]
    | ok s =>
      have hxs : (∃ n, DeltaValue.numberVal n false ∈ xs) ∨ DeltaValue.otherVal ∈ xs := by
        rcases h with ⟨n, hn⟩ | hn
        · rcases List.mem_cons.mp hn with h1 | h2
          · exfalso
            rw [← h1] at hcx
            simp [canonicalizeItem] at hcx
          · exact Or.inl ⟨n, h2⟩
        · rcases List.mem_cons.mp hn with h1 | h2
          · exfalso
            rw [← h1] at hcx
            simp [canonicalizeItem] at hcx
          · exact Or.inr h2
      rcases ih hxs with h1 | h1
      · left; simp [stringArrayOf, hcx, h1]
      · right; simp [stringArrayOf, hcx, h1]

theorem stringArrayOf_ok_of_supported :
    ∀ (l : List DeltaValue), (∀ x ∈ l, isSupported x = true) →
      stringArrayOf l = Except.ok (l.map canonicalForm) := by
  intro l
  induction l with
  | nil => intro _; rfl
  | cons x xs ih =>
    intro h
    have hx : isSupported x = true := h x (List.mem_cons_self x xs)
    have hxs : ∀ y ∈ xs, isSupported y = true := fun y hy => h y (List.mem_cons_of_mem _ hy)
    have hcx : canonicalizeItem x = Except.ok (canonicalForm x) := by
      cases x with
      | bigintVal n => rfl
      | numberVal n isSafeInt =>
        cases isSafeInt with
        | false => simp [isSupported] at hx
        | true => rfl
      | strVal s => rfl
      | otherVal => simp [isSupported] at hx
    simp [stringArrayOf, hcx, ih hxs, canonicalForm]

theorem stringArrayOf_mainDeltaw :
    stringArrayOf mainDeltaw = Except.ok ["1", "2", "3"] := rfl

theorem proofPhase_actions_cases (groupId : GroupId) (commitment : Commitment)
    (gm : List Commitment) (joinOk modOk : Bool) :
    ∀ a ∈ (proofPhase groupId commitment gm joinOk modOk).1,
      a = CoordAction.joinProofGen ∨ a = CoordAction.joinProofPost ∨
      a = CoordAction.modTrainProofGen ∨ a = CoordAction.modTrainPost ∨
      a = CoordAction.logSubmissionError := by
  intro a ha
  cases hidx : groupIndexOf gm commitment with
  | none =>
    simp [proofPhase, sendJoinProof, hidx] at ha
  | some i =>
    cases joinOk <;> cases modOk <;>
      simp [proofPhase, sendJoinProof, sendModTrainProof, hidx, stringArrayOf_mainDeltaw] at ha <;>
      tauto

/-! ## Claims -/

/-- C1: the claim requires that a wait registration requested while another
is pending either joins the pending future or is rejected, and never resolves
immediately without a matching event.  The code violates this: with a
registration for ("7", 123) pending (`isWaitingForMemberEvent = true`), the
next call — here for the different key ("8", 456) — returns an
already-resolved promise without any event for that key having occurred. -/
theorem c1_second_wait_resolves_immediately :
    waitForMemberEvent false "7" (some 123) =
      (true, WaitCallResult.registered "7" (some 123)) ∧
    (waitForMemberEvent true "8" (some 456)).2 = WaitCallResult.resolvedImmediately :=
  ⟨rfl, rfl⟩

/-- C2: a model-update value sequence containing a number that is not a safe
integer (or an element of unsupported type) makes `sendModTrainProof` fail
with the unsupported-value error before any proof generation and before any
network request: zero HTTP posts, zero `generateProof` calls, no message
built. -/
theorem c2_unsupported_value_rejected (groupId : GroupId) (group : List Commitment)
    (commitment : Commitment) (scope : String) (deltaw : List DeltaValue) (submitOk : Bool)
    (hMem : commitment ∈ group)
    (hBad : (∃ n, DeltaValue.numberVal n false ∈ deltaw) ∨ DeltaValue.otherVal ∈ deltaw) :
    ((sendModTrainProof groupId group commitment scope deltaw submitOk).result =
        Except.error WorkflowError.unsafeNumber ∨
      (sendModTrainProof groupId group commitment scope deltaw submitOk).result =
        Except.error WorkflowError.unsupportedType) ∧
    httpPostCount (sendModTrainProof groupId group commitment scope deltaw submitOk).actions = 0 ∧
    proofGenCount (sendModTrainProof groupId group commitment scope deltaw submitOk).actions = 0 ∧
    (sendModTrainProof groupId group commitment scope deltaw submitOk).message = none := by
  rcases groupIndexOf_isSome group commitment hMem with ⟨i, hidx⟩
  rcases stringArrayOf_error_of_bad deltaw hBad with h1 | h1 <;>
    simp [sendModTrainProof, hidx, h1, httpPostCount, proofGenCount]

/-- Witness for C2 at the concrete call of spec scenario 3: an unsafe number
in the sequence is rejected with no HTTP call. -/
theorem c2_witness :
    ((sendModTrainProof "7" [123] 123 "round-1" [DeltaValue.numberVal 7 false] true).result =
        Except.error WorkflowError.unsafeNumber ∨
      (sendModTrainProof "7" [123] 123 "round-1" [DeltaValue.numberVal 7 false] true).result =
        Except.error WorkflowError.unsupportedType) ∧
    httpPostCount (sendModTrainProof "7" [123] 123 "round-1"
      [DeltaValue.numberVal 7 false] true).actions = 0 ∧
    proofGenCount (sendModTrainProof "7" [123] 123 "round-1"
      [DeltaValue.numberVal 7 false] true).actions = 0 ∧
    (sendModTrainProof "7" [123] 123 "round-1" [DeltaValue.numberVal 7 false] true).message = none :=
  c2_unsupported_value_rejected "7" [123] 123 "round-1" [DeltaValue.numberVal 7 false] true
    (by decide) (Or.inl ⟨7, by decide⟩)

/-- C3: the claim requires every event to be applied to the mirror exactly
once for any timing of the live-subscription start.  The code's
`processEvent` queries past events up to the chain head and only afterwards
registers the live listener, with no watermark, buffering or de-duplication:
an event at position 1 arriving after the backfill query (head 0) but before
the subscription becomes effective (from position 1) is delivered by neither
phase, so the final mirror misses it, while applying the full stream once
each would record it. -/
theorem c3_gap_event_lost :
    processEventDelivered 0 0 1 [⟨1, RawChainEvent.MemberAdded "7" 0 123⟩] = [] ∧
    mirrorMembers
      (applyRecords []
        (processEventDelivered 0 0 1 [⟨1, RawChainEvent.MemberAdded "7" 0 123⟩])).1 "7" = [] ∧
    mirrorMembers
      (applyRecords [] [⟨1, RawChainEvent.MemberAdded "7" 0 123⟩]).1 "7" = ["123"] := by
  refine ⟨rfl, rfl, ?_⟩
  decide

/-- C4 counterexample: the claim states that a registration resolves only on
`MemberAddedProcessed` or `MemberUpdatedProcessed` events with exactly
matching key, and that events of a different kind or different commitment
leave it pending.  The handler is also subscribed to
`MemberRemovedProcessed`, so a removal event with matching key resolves the
registration; moreover a registration whose commitment is the falsy bigint 0
resolves on a non-matching commitment. -/
theorem c4_counterexample :
    waitHandlerResolves "7" (some 123) (NormalizedEvent.MemberRemovedProcessed "7" "123") = true ∧
    waitHandlerResolves "7" (some 0) (NormalizedEvent.MemberAddedProcessed "7" "999") = true := by
  refine ⟨?_, ?_⟩ <;> decide

/-- C4 (amended): a pending registration for (groupId, commitment) resolves
exactly on normalized events of kind `MemberAddedProcessed`,
`MemberRemovedProcessed` or `MemberUpdatedProcessed` whose group id matches
and whose commitment string matches the registered commitment's decimal
string — except that a registration for the falsy commitment 0 matches any
commitment.  `GroupCreated` events, different groups, and (for nonzero
registrations) different commitments leave it pending. -/
theorem c4_amended_resolution (groupId : GroupId) (c : Commitment) (e : NormalizedEvent) :
    waitHandlerResolves groupId (some c) e = true ↔
      ∃ s, (e = NormalizedEvent.MemberAddedProcessed groupId s ∨
            e = NormalizedEvent.MemberRemovedProcessed groupId s ∨
            e = NormalizedEvent.MemberUpdatedProcessed groupId s) ∧
           (c = 0 ∨ s = toString c) := by
  cases e with
  | GroupCreated g => simp [waitHandlerResolves]
  | MemberAddedProcessed g s =>
    by_cases hc : c = 0 <;>
      simp [waitHandlerResolves, commitmentMatches, hc, and_comm]
  | MemberRemovedProcessed g s =>
    by_cases hc : c = 0 <;>
      simp [waitHandlerResolves, commitmentMatches, hc, and_comm]
  | MemberUpdatedProcessed g s =>
    by_cases hc : c = 0 <;>
      simp [waitHandlerResolves, commitmentMatches, hc, and_comm]

/-- C5: when the authoritative chain query `hasMember` returns true, the
coordinator issues no add-member request and creates no wait registration,
and its trace is exactly the proof-construction phase. -/
theorem c5_membership_short_circuit (groupId : GroupId) (commitment : Commitment)
    (hasMemberResult : Bool) (gm : List Commitment) (addOk joinOk modOk : Bool)
    (h : hasMemberResult = true) :
    CoordAction.addMemberPost ∉
      (main groupId commitment hasMemberResult gm addOk joinOk modOk).actions ∧
    CoordAction.waitRegistration ∉
      (main groupId commitment hasMemberResult gm addOk joinOk modOk).actions ∧
    (main groupId commitment hasMemberResult gm addOk joinOk modOk).actions =
      (proofPhase groupId commitment gm joinOk modOk).1 := by
  subst h
  refine ⟨?_, ?_, ?_⟩
  · intro hmem
    simp only [main, isAlreadyMember, if_pos rfl, List.nil_append] at hmem
    have := proofPhase_actions_cases groupId commitment gm joinOk modOk _ hmem
    simp at this
  · intro hmem
    simp only [main, isAlreadyMember, if_pos rfl, List.nil_append] at hmem
    have := proofPhase_actions_cases groupId commitment gm joinOk modOk _ hmem
    simp at this
  · simp [main, isAlreadyMember]

/-- Witness for C5: with `hasMember` true, the concrete run performs no
admission request. -/
theorem c5_witness :
    CoordAction.addMemberPost ∉ (main "7" 123 true [123] true true true).actions :=
  (c5_membership_short_circuit "7" 123 true [123] true true true rfl).1

/-- C6: for a sequence of supported values, the model-update proof message is
exactly the UTF-8 byte encoding of the JSON array of the elements' decimal
canonical forms, in input order (the spec-side `specProofMessage`). -/
theorem c6_message_is_canonical_json_bytes (groupId : GroupId) (group : List Commitment)
    (commitment : Commitment) (scope : String) (deltaw : List DeltaValue) (submitOk : Bool)
    (hMem : commitment ∈ group) (hSup : ∀ x ∈ deltaw, isSupported x = true) :
    (sendModTrainProof groupId group commitment scope deltaw submitOk).message =
      some (specProofMessage deltaw) ∧
    (sendModTrainProof groupId group commitment scope deltaw submitOk).result =
      Except.ok () := by
  rcases groupIndexOf_isSome group commitment hMem with ⟨i, hidx⟩
  simp [sendModTrainProof, hidx, stringArrayOf_ok_of_supported deltaw hSup, specProofMessage]

/-- Witness for C6 at the values of spec scenario 3 (with a safe number):
the message equals the canonical JSON bytes. -/
theorem c6_witness :
    (sendModTrainProof "7" [123] 123 "round-1"
        [DeltaValue.bigintVal 1, DeltaValue.strVal "2", DeltaValue.numberVal 3 true]
        true).message =
      some (specProofMessage
        [DeltaValue.bigintVal 1, DeltaValue.strVal "2", DeltaValue.numberVal 3 true]) :=
  (c6_message_is_canonical_json_bytes "7" [123] 123 "round-1"
    [DeltaValue.bigintVal 1, DeltaValue.strVal "2", DeltaValue.numberVal 3 true] true
    (by decide) (by decide)).1

/-- C7: when the caller's commitment is absent from the loaded group
snapshot, both proof constructions fail with the commitment-not-found error
and that step performs no proof generation and no submission (its action
trace is empty). -/
theorem c7_commitment_not_found (groupId : GroupId) (group : List Commitment)
    (commitment : Commitment) (scope : String) (deltaw : List DeltaValue)
    (joinOk modOk : Bool) (hAbs : commitment ∉ group) :
    (sendJoinProof groupId group commitment joinOk).result =
      Except.error WorkflowError.commitmentNotFound ∧
    (sendJoinProof groupId group commitment joinOk).actions = [] ∧
    (sendModTrainProof groupId group commitment scope deltaw modOk).result =
      Except.error WorkflowError.commitmentNotFound ∧
    (sendModTrainProof groupId group commitment scope deltaw modOk).actions = [] := by
  have hidx := groupIndexOf_eq_none group commitment hAbs
  simp [sendJoinProof, sendModTrainProof, hidx]

/-- Witness for C7: commitment 999 is absent from the group [123]. -/
theorem c7_witness :
    (sendJoinProof "7" [123] 999 true).result =
      Except.error WorkflowError.commitmentNotFound ∧
    (sendJoinProof "7" [123] 999 true).actions = [] ∧
    (sendModTrainProof "7" [123] 999 "round-1" mainDeltaw true).result =
      Except.error WorkflowError.commitmentNotFound ∧
    (sendModTrainProof "7" [123] 999 "round-1" mainDeltaw true).actions = [] :=
  c7_commitment_not_found "7" [123] 999 "round-1" mainDeltaw true true (by decide)

/-- C8: the join-proof public message is the fixed prefix followed by the
8-character prefix of the commitment's decimal string (exactly 8 characters
when the decimal string is at least that long), and the scope is the fixed
prefix concatenated with the group id. -/
theorem c8_join_message_and_scope (groupId : GroupId) (group : List Commitment)
    (commitment : Commitment) (submitOk : Bool)
    (hMem : commitment ∈ group) (hLen : 8 ≤ (toString commitment).length) :
    (sendJoinProof groupId group commitment submitOk).message =
      some (specJoinMessage commitment) ∧
    (strTake (toString commitment) 8).length = 8 ∧
    (sendJoinProof groupId group commitment submitOk).scope =
      some (specJoinScope groupId) := by
  rcases groupIndexOf_isSome group commitment hMem with ⟨i, hidx⟩
  refine ⟨?_, ?_, ?_⟩
  · simp [sendJoinProof, hidx, specJoinMessage]
  · show (String.mk ((toString commitment).data.take 8)).length = 8
    have hlen : (String.mk ((toString commitment).data.take 8)).length =
        ((toString commitment).data.take 8).length := rfl
    rw [hlen, List.length_take]
    exact Nat.min_eq_left hLen
  · simp [sendJoinProof, hidx, specJoinScope]

/-- Witness for C8 at a commitment with an 11-digit decimal string. -/
theorem c8_witness :
    (sendJoinProof "7" [12345678901] 12345678901 true).message =
      some (specJoinMessage 12345678901) ∧
    (strTake (toString (12345678901 : Commitment)) 8).length = 8 ∧
    (sendJoinProof "7" [12345678901] 12345678901 true).scope = some (specJoinScope "7") :=
  c8_join_message_and_scope "7" [12345678901] 12345678901 true (by decide) (by decide)

/-- C9: every network submission of the coordinator run is a single attempt
(no automatic retry), submission failures are logged and do not abort the
sequence: for any combination of add-member/join/model-update submission
outcomes the run completes with `ok`, posts the join proof exactly once and
the model-update proof exactly once — in particular a failed join-proof
submission does not prevent the model-update submission — and a failed join
submission leaves a log entry. -/
theorem c9_submission_failures_logged_and_continue (groupId : GroupId)
    (commitment : Commitment) (hasMemberResult : Bool) (gm : List Commitment)
    (addOk joinOk modOk : Bool) (hMem : commitment ∈ gm) :
    (main groupId commitment hasMemberResult gm addOk joinOk modOk).result = Except.ok () ∧
    (main groupId commitment hasMemberResult gm addOk joinOk modOk).actions.count
      CoordAction.joinProofPost = 1 ∧
    (main groupId commitment hasMemberResult gm addOk joinOk modOk).actions.count
      CoordAction.modTrainPost = 1 ∧
    (joinOk = false → CoordAction.logSubmissionError ∈
      (main groupId commitment hasMemberResult gm addOk joinOk modOk).actions) := by
  rcases groupIndexOf_isSome gm commitment hMem with ⟨i, hidx⟩
  cases hasMemberResult <;> cases addOk <;> cases joinOk <;> cases modOk <;>
    simp [main, isAlreadyMember, proofPhase, sendJoinProof, sendModTrainProof,
      addMemberRequest, stringArrayOf_mainDeltaw, hidx]

/-- Witness for C9: with all three submissions failing, the run still
completes and posts the model-update proof. -/
theorem c9_witness :
    (main "7" 123 false [123] false false false).result = Except.ok () ∧
    (main "7" 123 false [123] false false false).actions.count
      CoordAction.joinProofPost = 1 ∧
    (main "7" 123 false [123] false false false).actions.count
      CoordAction.modTrainPost = 1 ∧
    (false = false → CoordAction.logSubmissionError ∈
      (main "7" 123 false [123] false false false).actions) :=
  c9_submission_failures_logged_and_continue "7" 123 false [123] false false false (by decide)

/-- C10: the `MembersAdded` batch handler adds every commitment of the batch
to the mirror but emits no `NormalizedEvent`, so no pending wait registration
(for any key) can be resolved by the batch. -/
theorem c10_members_added_batch_silent (m : Mirror) (g : GroupId) (startIndex : Nat)
    (cs : List Commitment) (waitGroup : GroupId) (waitCommitment : Commitment) :
    (handleRawEvent m (RawChainEvent.MembersAdded g startIndex cs)).2 = [] ∧
    (∀ c, c ∈ cs →
      toString c ∈ mirrorMembers (handleRawEvent m (RawChainEvent.MembersAdded g startIndex cs)).1 g) ∧
    (∀ e, e ∈ (handleRawEvent m (RawChainEvent.MembersAdded g startIndex cs)).2 →
      waitHandlerResolves waitGroup (some waitCommitment) e = false) := by
  refine ⟨rfl, ?_, ?_⟩
  · intro c hc
    simpa [handleRawEvent] using mem_foldl_addMember g cs m c hc
  · intro e he
    simp [handleRawEvent] at he

/-- Witness for C10: a batch adding commitment 5 to group "7" records it in
the mirror while emitting nothing. -/
theorem c10_witness :
    toString (5 : Commitment) ∈
      mirrorMembers (handleRawEvent [] (RawChainEvent.MembersAdded "7" 0 [5])).1 "7" :=
  (c10_members_added_batch_silent [] "7" 0 [5] "7" 123).2.1 5 (by decide)

end ZeroTrustAuth
